import Mathlib

/-!
Shallow embedding of the `domain_agent` repository's session / generation
core: the session store (`store.py`), the candidate generator and the
availability checker (`agents.py`), the API generation loop and feedback
endpoint (`api_server.py`), and the CLI session loop (`main.py`).

Python dicts are modelled as association lists in insertion order.  The
external collaborators (LLM calls, HTTP requests, the IANA RDAP bootstrap
table) are modelled as explicit oracle parameters, so every claim is
quantified over their behaviour.
-/

namespace DomainAgent

/-- A Python `dict` keyed by strings, kept in insertion order. -/
abbrev Dict (β : Type) := List (String × β)

/-- Python `d.get(k)` / `k in d`: first binding wins (keys are unique in any
dict produced by the embedded operations). -/
def dlookup {β : Type} : Dict β → String → Option β
  | [], _ => none
  | (k2, v) :: rest, k => if k2 = k then some v else dlookup rest k

/-- Python `d[k] = v`: replaces the value in place when the key exists,
otherwise appends the new binding at the end. -/
def dinsert {β : Type} (d : Dict β) (k : String) (v : β) : Dict β :=
  if (dlookup d k).isSome then
    d.map (fun p => if p.1 = k then (k, v) else p)
  else d ++ [(k, v)]

/-- Python `d.update(e)`. -/
def dupdate {β : Type} (d e : Dict β) : Dict β :=
  e.foldl (fun acc p => dinsert acc p.1 p.2) d

/-- Python `list(d.keys())`. -/
def dkeys {β : Type} (d : Dict β) : List String := d.map Prod.fst

/-- `SessionStore.add` (`store.py` lines 26-33): each name is appended to the
session's `suggested` list only when it is not already present, so the list
stays duplicate-free and grows to the union. -/
def addNames (suggested : List String) (names : List String) : List String :=
  names.foldl (fun acc n => if n ∈ acc then acc else acc ++ [n]) suggested

/-- A History record: a classification status (`"AVAILABLE"` / `"TAKEN"`)
paired with the creator source tag. -/
abbrev HistoryRec := String × String

/-- One guarded write of `SessionStore.record_results`: `if name not in
history: history[name] = ...` — an existing record is never overwritten. -/
def record1 (status : String) (h : Dict HistoryRec) (c : String × String) :
    Dict HistoryRec :=
  if (dlookup h c.1).isSome then h else h ++ [(c.1, (status, c.2))]

/-- `SessionStore.record_results` (`store.py` lines 35-46): first writes all
available names with status `"AVAILABLE"`, then all taken names with status
`"TAKEN"`, each under the first-write-wins guard. -/
def record_results (h : Dict HistoryRec) (available taken : Dict String) :
    Dict HistoryRec :=
  taken.foldl (record1 "TAKEN") (available.foldl (record1 "AVAILABLE") h)

/-- `CreatorAgent.create` (`agents.py` lines 210-235), parametrised over the
raw batches returned by the selected creator models: each `_generate_batch`
call yields a name→tag dict (a failed call contributes `{}`).  The batches
are merged with dict-update semantics and every name already in
`previously_seen` is dropped before returning. -/
def create (batches : List (Dict String)) (previously_seen : List String) :
    Dict String :=
  (batches.foldl dupdate []).filter (fun p => decide (p.1 ∉ previously_seen))

/-- Outcome of the direct RDAP HTTP request of LOCAL mode: the request either
raises `requests.RequestException` (timeouts included) or yields an HTTP
status code. -/
inductive HttpResult
  | err
  | status (code : Nat)
deriving DecidableEq

/-- Outcome of one per-name LLM web-search call of MODEL mode: either the API
call raises, or it yields the parsed name→status dict (strict JSON decode
with the regex fallback of `_filter_with_llm_search`; a response neither
stage can parse yields the empty dict, so the later lookup falls back to
`"UNKNOWN"`). -/
inductive LLMOutcome
  | err
  | response (results : Dict String)
deriving DecidableEq

/-- `name.split(chr 46)[-1]` of `_filter_with_local_http`: the substring
after the last dot (the whole name when it has no dot, the empty string when
it ends with a dot).  Python's `split` always returns a non-empty list, so
the guarded `IndexError` branch of the source is unreachable and the last
component always exists.  Implemented by structural recursion over the
character list so that concrete inputs evaluate inside the kernel. -/
def tldOf (name : String) : String :=
  String.mk ((name.data.reverse.takeWhile (fun c => c != '.')).reverse)

/-- The query URL built by `_filter_with_local_http`:
`rdap_base_url.rstrip(slash) + "/domain/" + name`. -/
def queryUrl (base name : String) : String :=
  (base.dropRightWhile (· = '/')) ++ "/domain/" ++ name

/-- Per-candidate body of the loop in `CheckerAgent._filter_with_local_http`
(`agents.py` lines 271-297): a missing RDAP server for the TLD is "Assuming
FREE" (the name goes to `available`); a failed request is assumed TAKEN;
otherwise HTTP status 200 means TAKEN and any other status means FREE. -/
def localStep (rdap : String → Option String) (http : String → HttpResult)
    (acc : Dict String × Dict String) (c : String × String) :
    Dict String × Dict String :=
  match rdap (tldOf c.1) with
  | none => (acc.1 ++ [c], acc.2)
  | some base =>
    match http (queryUrl base c.1) with
    | HttpResult.err => (acc.1, acc.2 ++ [c])
    | HttpResult.status code =>
      if code = 200 then (acc.1, acc.2 ++ [c]) else (acc.1 ++ [c], acc.2)

/-- `CheckerAgent._filter_with_local_http` (`agents.py` lines 271-297). -/
def filter_with_local_http (rdap : String → Option String)
    (http : String → HttpResult) (candidates : Dict String) :
    Dict String × Dict String :=
  candidates.foldl (localStep rdap http) ([], [])

/-- `results.get(name, "UNKNOWN").upper()` of `_filter_with_llm_search`. -/
def statusOf (results : Dict String) (name : String) : String :=
  ((dlookup results name).getD "UNKNOWN").toUpper

/-- Per-candidate body of the loop in `CheckerAgent._filter_with_llm_search`
(`agents.py` lines 319-364): an exception classifies the name TAKEN; a parsed
status `"OK"` means TAKEN, `"NOT"` means FREE, and any other (ambiguous)
status is assumed TAKEN. -/
def llmStep (llm : String → LLMOutcome)
    (acc : Dict String × Dict String) (c : String × String) :
    Dict String × Dict String :=
  match llm c.1 with
  | LLMOutcome.err => (acc.1, acc.2 ++ [c])
  | LLMOutcome.response results =>
    if statusOf results c.1 = "OK" then (acc.1, acc.2 ++ [c])
    else if statusOf results c.1 = "NOT" then (acc.1 ++ [c], acc.2)
    else (acc.1, acc.2 ++ [c])

/-- `CheckerAgent._filter_with_llm_search` (`agents.py` lines 299-366), after
the guard for a missing `search_model` (handled in `filter_available`). -/
def filter_with_llm_search (llm : String → LLMOutcome)
    (candidates : Dict String) : Dict String × Dict String :=
  candidates.foldl (llmStep llm) ([], [])

/-- `CheckerAgent.filter_available` (`agents.py` lines 368-375) together with
the missing-`search_model` guard at the top of `_filter_with_llm_search`
(lines 304-306): an empty batch returns two empty dicts; in MODEL mode with
no search model configured the whole batch is returned as taken; otherwise
the mode selects one of the two filters.  `mode` is already upper-cased
(`config.get("mode", "LOCAL").upper()`), and `searchModel = none` models a
falsy `search_model` (absent or empty). -/
def filter_available (mode : String) (searchModel : Option String)
    (llm : String → LLMOutcome) (rdap : String → Option String)
    (http : String → HttpResult) (candidates : Dict String) :
    Dict String × Dict String :=
  if candidates = [] then ([], [])
  else if mode = "MODEL" then
    match searchModel with
    | none => ([], candidates)
    | some _ => filter_with_llm_search llm candidates
  else filter_with_local_http rdap http candidates

/-- `DirectionistAgent._build_feedback_summary` (`agents.py` lines 423-445):
three optional blocks (liked, disliked, taken-but-liked) joined by blank
lines; all-empty input yields the empty string. -/
def buildFeedbackSummary (liked : Dict String) (takenNames : List String)
    (disliked : Dict String) : String :=
  let parts :=
    (if liked = [] then [] else
      ["POSITIVE FEEDBACK (domains the user liked):\n" ++
        String.intercalate "\n"
          (liked.map (fun p => "- Liked \x27" ++ p.1 ++ "\x27: " ++ p.2))]) ++
    (if disliked = [] then [] else
      ["NEGATIVE FEEDBACK (domains the user disliked):\n" ++
        String.intercalate "\n"
          (disliked.map (fun p => "- Disliked \x27" ++ p.1 ++ "\x27: " ++ p.2))]) ++
    (if takenNames = [] then [] else
      ["NEGATIVE FEEDBACK (these were good ideas, but already taken):\n- " ++
        String.intercalate ", " takenNames])
  String.intercalate "\n\n" parts

/-- `DirectionistAgent.refine_brief` (`agents.py` lines 447-469), with the
underlying LLM rewrite call abstracted as `rewrite`: it sees exactly the data
the prompt is built from (the brief being refined and the feedback summary)
and returns `none` when the call raises, in which case the except branch
returns the unchanged brief with the already-computed summary.  A
`disliked_domains` of `None` is normalised to `{}` before this function; the
dynamically ill-typed call sites of `main.py` are modelled separately by
`refineBriefDyn`. -/
def refine_brief (rewrite : String → String → Option String)
    (original_brief : String) (liked : Dict String) (takenNames : List String)
    (disliked : Dict String) : String × String :=
  let feedback_summary := buildFeedbackSummary liked takenNames disliked
  if feedback_summary = "" then (original_brief, "")
  else
    match rewrite original_brief feedback_summary with
    | some new_brief => (new_brief, feedback_summary)
    | none => (original_brief, feedback_summary)

/-- A dynamically-typed Python value as passed in the `disliked_domains`
slot of `refine_brief`: `main.py` passes either `None` or a plain string
(`dislike_reason`), while the API server passes a dict. -/
inductive PyVal
  | pynone
  | pystr (s : String)
  | pydict (d : Dict String)

/-- Python truthiness, as used by the `disliked_domains or` normalisation. -/
def pyTruthy : PyVal → Bool
  | PyVal.pynone => false
  | PyVal.pystr s => decide (s ≠ "")
  | PyVal.pydict d => decide (d ≠ [])

/-- The exception raised when `_build_feedback_summary` reaches
`disliked_domains.items()` while `disliked_domains` is actually a `str`. -/
def itemsAttributeError : String :=
  "AttributeError: \x27str\x27 object has no attribute \x27items\x27"

/-- `DirectionistAgent.refine_brief` under Python's dynamic typing: the
`or`-normalisation keeps any non-empty string, and `_build_feedback_summary`
then raises `AttributeError` on `.items()` — before the try/except guarding
the rewrite call is ever reached, so the exception escapes to the caller. -/
def refineBriefDyn (rewrite : String → String → Option String)
    (original_brief : String) (liked : Dict String) (takenNames : List String)
    (disliked : PyVal) : Except String (String × String) :=
  match (if pyTruthy disliked then disliked else PyVal.pydict []) with
  | PyVal.pystr _ => Except.error itemsAttributeError
  | PyVal.pydict d =>
    Except.ok (refine_brief rewrite original_brief liked takenNames d)
  | PyVal.pynone =>
    Except.ok (refine_brief rewrite original_brief liked takenNames [])

/-- Outcome of one CLI round of `run_session` (`main.py`) whose AVAILABLE
result set is empty. -/
inductive EmptyRoundOutcome
  | aborted
  | crashed (msg : String)
  | continued (brief : String) (summary : String) (failures : Nat)
deriving DecidableEq

/-- The empty-AVAILABLE branch of `run_session` (`main.py` lines 87-100):
increment the failure counter, abort once the cap is reached, otherwise build
the automatic `dislike_reason` string and call
`refine_brief(initial_brief, dict(), list(taken_domains.keys()), dislike_reason)`.
Note both that the brief refined is the session's *initial* brief and that
`dislike_reason` is a `str` passed in the `disliked_domains` slot. -/
def cliEmptyRoundStep (rewrite : String → String → Option String)
    (maxFailures failures : Nat) (initial_brief : String)
    (taken_domains : Dict String) : EmptyRoundOutcome :=
  let failures2 := failures + 1
  if maxFailures ≤ failures2 then EmptyRoundOutcome.aborted
  else
    let dislike_reason :=
      if taken_domains = [] then
        "No available domains were found, and the generator returned few ideas."
      else
        "No available domains were found. The following ideas were all taken: " ++
          String.intercalate ", " (dkeys taken_domains)
    match refineBriefDyn rewrite initial_brief [] (dkeys taken_domains)
        (PyVal.pystr dislike_reason) with
    | Except.error e => EmptyRoundOutcome.crashed e
    | Except.ok r => EmptyRoundOutcome.continued r.1 r.2 failures2

/-- The feedback step ending a successful CLI round in which the user liked
at least one shown domain (`main.py` lines 119-133): `dislike_reason` stays
`None`, and the next brief is
`refine_brief(initial_brief, liked_domains_map, list(taken_domains.keys()), None)`
— a refinement of the session's *initial* brief, not of the current round's
brief. -/
def cliLikedRoundBrief (rewrite : String → String → Option String)
    (initial_brief : String) (liked : Dict String)
    (takenNames : List String) : String :=
  (refine_brief rewrite initial_brief liked takenNames []).1

/-- The per-session server state relevant to the feedback endpoint:
`state["brief"]`, `state["loop"]`, and the accumulated taken dict of the last
generation call. -/
structure ApiState where
  brief : String
  loop : Nat
  taken : Dict String
deriving DecidableEq

/-- The `give_feedback` handler (`api_server.py` lines 175-196) as far as it
mutates the session state: `refine_brief(state["brief"], liked, taken-keys,
disliked)` applied to the *current* brief, then `state["brief"] = new_brief`
and `state["loop"] += 1`. -/
def give_feedback (rewrite : String → String → Option String)
    (st : ApiState) (liked disliked : Dict String) : ApiState :=
  let r := refine_brief rewrite st.brief liked (dkeys st.taken) disliked
  { brief := r.1, loop := st.loop + 1, taken := st.taken }

/-- Iterated feedback rounds against the API server: round `n` submits the
liked / disliked payload `script n`. -/
def apiRun (rewrite : String → String → Option String)
    (script : Nat → Dict String × Dict String) (st0 : ApiState) :
    Nat → ApiState
  | 0 => st0
  | n + 1 =>
    give_feedback rewrite (apiRun rewrite script st0 n) (script n).1 (script n).2

/-- The mutable state of one `/generate` call (`api_server.py` lines 151-167)
together with the session store it reads and writes: the session's suggested
(seen) list, the session History, and the call's accumulated available and
taken dicts. -/
structure LoopSt where
  seen : List String
  history : Dict HistoryRec
  available : Dict String
  taken : Dict String
deriving DecidableEq

/-- One iteration of the generation loop body (`api_server.py` lines
155-164): generate ideas against the current seen set, register them in the
store *before* classification, classify, merge both sides into the
accumulators, and record both into History.  `batches a` gives the raw
creator batches of attempt `a`, and `checker` abstracts
`checker_agent.filter_available` with its oracles. -/
def roundBody (batches : Nat → List (Dict String))
    (checker : Dict String → Dict String × Dict String)
    (a : Nat) (st : LoopSt) : LoopSt :=
  let ideas := create (batches a) st.seen
  let seen2 := addNames st.seen (dkeys ideas)
  let r := checker ideas
  { seen := seen2,
    history := record_results st.history r.1 r.2,
    available := dupdate st.available r.1,
    taken := dupdate st.taken r.2 }

/-- The `while len(available) < desired and attempts < max_attempts` loop of
`generate_suggestions`, with `fuel = max_attempts - attempts` as the
decreasing measure (so `fuel = 0` is exactly `attempts = max_attempts`);
returns the final attempt count and state. -/
def generateLoopAux (body : Nat → LoopSt → LoopSt) (desired : Nat) :
    Nat → Nat → LoopSt → Nat × LoopSt
  | 0, attempts, st => (attempts, st)
  | fuel + 1, attempts, st =>
    if st.available.length < desired then
      generateLoopAux body desired fuel (attempts + 1) (body (attempts + 1) st)
    else (attempts, st)

/-- `generate_suggestions` (`api_server.py` lines 151-167): run the
convergence loop from zero attempts with the full attempt budget. -/
def generate_suggestions (body : Nat → LoopSt → LoopSt)
    (desired maxAttempts : Nat) (st0 : LoopSt) : Nat × LoopSt :=
  generateLoopAux body desired maxAttempts 0 st0

/-- The spec's vocabulary for how the convergence loop ended (the code keeps
no explicit status value; `TARGET_MET` corresponds to the accumulated
AVAILABLE count having reached the target when the loop stopped). -/
inductive LoopOutcome
  | targetMet
  | budgetExhausted
deriving DecidableEq

/-- Classify a finished loop state in the spec's terms. -/
def loopOutcome (desired : Nat) (st : LoopSt) : LoopOutcome :=
  if desired ≤ st.available.length then LoopOutcome.targetMet
  else LoopOutcome.budgetExhausted

/-- The per-candidate decision implicit in `_filter_with_local_http`:
`true` means the name goes to `available`. -/
def localDecision (rdap : String → Option String) (http : String → HttpResult)
    (c : String × String) : Bool :=
  match rdap (tldOf c.1) with
  | none => true
  | some base =>
    match http (queryUrl base c.1) with
    | HttpResult.err => false
    | HttpResult.status code => decide (code ≠ 200)

/-- The per-candidate decision implicit in `_filter_with_llm_search`:
`true` means the name goes to `available`. -/
def llmDecision (llm : String → LLMOutcome) (c : String × String) : Bool :=
  match llm c.1 with
  | LLMOutcome.err => false
  | LLMOutcome.response results => decide (statusOf results c.1 = "NOT")

/-- Mock generator for the convergence scenarios: attempt `a` proposes the
single fresh name `d<a>.com`, tagged as coming from Creator A. -/
def oneFreshBatch (a : Nat) : List (Dict String) :=
  [[("d" ++ Nat.repr a ++ ".com", "CreatorA")]]

/-- Mock generator whose third attempt proposes two fresh names (to exhibit
overshoot past the target count). -/
def overshootBatch (a : Nat) : List (Dict String) :=
  if a = 3 then
    [[("d" ++ Nat.repr a ++ ".com", "CreatorA"),
      ("e" ++ Nat.repr a ++ ".com", "CreatorC")]]
  else [[("d" ++ Nat.repr a ++ ".com", "CreatorA")]]

/-- Mock availability filter classifying every candidate AVAILABLE. -/
def allAvailableChecker (ideas : Dict String) : Dict String × Dict String :=
  (ideas, [])

/-- Mock availability filter classifying every candidate TAKEN. -/
def noneAvailableChecker (ideas : Dict String) : Dict String × Dict String :=
  ([], ideas)

/-- A freshly created session's loop state (empty store, nothing seen). -/
def emptyLoopSt : LoopSt := ⟨[], [], [], []⟩

/-- A concrete, always-succeeding rewrite oracle used by the brief-sequencing
and failure-path scenarios. -/
def exRewrite : String → String → Option String :=
  fun brief summary => some (brief ++ " | " ++ summary)

/-- Concrete liked-domains payload of the first scenario round. -/
def exLiked1 : Dict String := [("alpha.com", "crisp")]

/-- Concrete liked-domains payload of the second scenario round. -/
def exLiked2 : Dict String := [("beta.com", "warm")]

/-- RDAP bootstrap oracle that knows no server for any TLD. -/
def exNoServerRdap : String → Option String := fun _ => none

/-- RDAP bootstrap oracle that knows a server for `.com` only. -/
def exRdapW : String → Option String :=
  fun t => if t = "com" then some "https://rdap.example" else none

/-- HTTP oracle whose every request raises (network error / timeout). -/
def exHttpErr : String → HttpResult := fun _ => HttpResult.err

/-- LLM search oracle whose every call raises. -/
def exLlmErr : String → LLMOutcome := fun _ => LLMOutcome.err

/-- Concrete two-candidate batch for the partition witness. -/
def exCandsC4 : Dict String := [("a.com", "CreatorA"), ("b.net", "CreatorB")]

/-- The LOCAL per-candidate step routes each candidate to exactly one side,
according to `localDecision`. -/
theorem localStep_eq (rdap : String → Option String) (http : String → HttpResult)
    (acc : Dict String × Dict String) (c : String × String) :
    localStep rdap http acc c =
      if localDecision rdap http c then (acc.1 ++ [c], acc.2)
      else (acc.1, acc.2 ++ [c]) := by
  unfold localStep localDecision
  cases rdap (tldOf c.1) with
  | none => simp
  | some base =>
    rcases hh : http (queryUrl base c.1) with _ | code
    · simp [hh]
    · by_cases h : code = 200 <;> simp [hh, h]

/-- The MODEL per-candidate step routes each candidate to exactly one side,
according to `llmDecision`. -/
theorem llmStep_eq (llm : String → LLMOutcome)
    (acc : Dict String × Dict String) (c : String × String) :
    llmStep llm acc c =
      if llmDecision llm c then (acc.1 ++ [c], acc.2)
      else (acc.1, acc.2 ++ [c]) := by
  unfold llmStep llmDecision
  rcases hl : llm c.1 with _ | results
  · simp [hl]
  · by_cases h1 : statusOf results c.1 = "OK"
    · have h2 : ¬ statusOf results c.1 = "NOT" := by rw [h1]; decide
      simp [hl, h1, h2]
    · by_cases h2 : statusOf results c.1 = "NOT" <;> simp [hl, h1, h2]

/-- A left fold of a two-sided routing step splits the input into the
entries whose decision is `true` and those whose decision is `false`,
preserving input order on each side. -/
theorem foldl_split
    {step : Dict String × Dict String → String × String → Dict String × Dict String}
    {d : String × String → Bool}
    (hstep : ∀ acc c, step acc c =
      if d c then (acc.1 ++ [c], acc.2) else (acc.1, acc.2 ++ [c])) :
    ∀ (cs : Dict String) (acc : Dict String × Dict String),
      cs.foldl step acc =
        (acc.1 ++ cs.filter d, acc.2 ++ cs.filter (fun c => ! d c)) := by
  intro cs
  induction cs with
  | nil => intro acc; simp
  | cons c cs ih =>
    intro acc
    rw [List.foldl_cons, hstep]
    by_cases h : d c = true
    · rw [if_pos h, ih]
      simp [List.filter_cons, h]
    · rw [if_neg h, ih]
      simp only [Bool.not_eq_true] at h
      simp [List.filter_cons, h]

/-- `_filter_with_local_http` as a pair of filters over the input batch. -/
theorem filter_with_local_http_eq (rdap : String → Option String)
    (http : String → HttpResult) (cs : Dict String) :
    filter_with_local_http rdap http cs =
      (cs.filter (localDecision rdap http),
       cs.filter (fun c => ! localDecision rdap http c)) := by
  unfold filter_with_local_http
  rw [foldl_split (localStep_eq rdap http) cs ([], [])]
  simp

/-- `_filter_with_llm_search` as a pair of filters over the input batch. -/
theorem filter_with_llm_search_eq (llm : String → LLMOutcome) (cs : Dict String) :
    filter_with_llm_search llm cs =
      (cs.filter (llmDecision llm),
       cs.filter (fun c => ! llmDecision llm c)) := by
  unfold filter_with_llm_search
  rw [foldl_split (llmStep_eq llm) cs ([], [])]
  simp

/-- Key membership in a dict is entry membership for some value. -/
theorem mem_dkeys {β : Type} (d : Dict β) (n : String) :
    n ∈ dkeys d ↔ ∃ v, (n, v) ∈ d := by
  unfold dkeys
  rw [List.mem_map]
  constructor
  · rintro ⟨⟨k, v⟩, hp, rfl⟩
    exact ⟨v, hp⟩
  · rintro ⟨v, hv⟩
    exact ⟨(n, v), hv, rfl⟩

/-- In a dict with duplicate-free keys, a key determines its value. -/
theorem dkeys_nodup_unique {β : Type} :
    ∀ (d : Dict β), (dkeys d).Nodup → ∀ {n : String} {v w : β},
      (n, v) ∈ d → (n, w) ∈ d → v = w := by
  intro d
  induction d with
  | nil =>
    intro _ n v w hv _
    simp at hv
  | cons p rest ih =>
    intro hnd n v w hv hw
    have hnd2 : p.1 ∉ dkeys rest ∧ (dkeys rest).Nodup := by
      simpa [dkeys] using hnd
    rcases List.mem_cons.mp hv with hv1 | hv1 <;>
      rcases List.mem_cons.mp hw with hw1 | hw1
    · simpa using congrArg Prod.snd (hv1.trans hw1.symm)
    · exact absurd ((mem_dkeys rest n).mpr ⟨w, hw1⟩)
        (by rw [← hv1] at hnd2; exact hnd2.1)
    · exact absurd ((mem_dkeys rest n).mpr ⟨v, hv1⟩)
        (by rw [← hw1] at hnd2; exact hnd2.1)
    · exact ih hnd2.2 hv1 hw1

/-- Every key of the input batch shows up on one of the two filtered sides. -/
theorem filter_cover {d : String × String → Bool} (cs : Dict String) (n : String) :
    n ∈ dkeys cs ↔
      n ∈ dkeys (cs.filter d) ∨ n ∈ dkeys (cs.filter (fun c => ! d c)) := by
  rw [mem_dkeys, mem_dkeys, mem_dkeys]
  constructor
  · rintro ⟨v, hv⟩
    cases h : d (n, v) with
    | true => exact Or.inl ⟨v, List.mem_filter.mpr ⟨hv, h⟩⟩
    | false => exact Or.inr ⟨v, List.mem_filter.mpr ⟨hv, by simp [h]⟩⟩
  · rintro (⟨v, hv⟩ | ⟨v, hv⟩) <;> exact ⟨v, (List.mem_filter.mp hv).1⟩

/-- With duplicate-free input keys, no key shows up on both filtered sides. -/
theorem filter_disjoint {d : String × String → Bool} (cs : Dict String)
    (hnd : (dkeys cs).Nodup) (n : String)
    (h1 : n ∈ dkeys (cs.filter d)) :
    n ∉ dkeys (cs.filter (fun c => ! d c)) := by
  intro h2
  rcases (mem_dkeys _ n).mp h1 with ⟨v, hv⟩
  rcases (mem_dkeys _ n).mp h2 with ⟨w, hw⟩
  have hv2 := List.mem_filter.mp hv
  have hw2 := List.mem_filter.mp hw
  have hvw : v = w := dkeys_nodup_unique cs hnd hv2.1 hw2.1
  have hd : d (n, w) = true := hvw ▸ hv2.2
  have hnot : (! d (n, w)) = true := hw2.2
  rw [hd] at hnot
  simp at hnot

/-- The two filtered sides of a batch account for its full length. -/
theorem filter_length {d : String × String → Bool} (cs : Dict String) :
    (cs.filter d).length + (cs.filter (fun c => ! d c)).length = cs.length :=
  (List.length_eq_length_filter_add d).symm

/-- An entry whose decision is `true` puts its key on the first side only. -/
theorem filter_side_true {d : String × String → Bool} (cs : Dict String)
    (hnd : (dkeys cs).Nodup) {n s : String} (hmem : (n, s) ∈ cs)
    (hd : d (n, s) = true) :
    n ∈ dkeys (cs.filter d) ∧ n ∉ dkeys (cs.filter (fun c => ! d c)) := by
  have h1 : n ∈ dkeys (cs.filter d) :=
    (mem_dkeys _ n).mpr ⟨s, List.mem_filter.mpr ⟨hmem, hd⟩⟩
  exact ⟨h1, filter_disjoint cs hnd n h1⟩

/-- An entry whose decision is `false` puts its key on the second side only. -/
theorem filter_side_false {d : String × String → Bool} (cs : Dict String)
    (hnd : (dkeys cs).Nodup) {n s : String} (hmem : (n, s) ∈ cs)
    (hd : d (n, s) = false) :
    n ∈ dkeys (cs.filter (fun c => ! d c)) ∧ n ∉ dkeys (cs.filter d) := by
  have h1 : n ∈ dkeys (cs.filter (fun c => ! d c)) :=
    (mem_dkeys _ n).mpr ⟨s, List.mem_filter.mpr ⟨hmem, by simp [hd]⟩⟩
  refine ⟨h1, fun h2 => filter_disjoint cs hnd n h2 h1⟩

/-- Unfolding one step of `SessionStore.add`. -/
theorem addNames_cons (s : List String) (n : String) (ns : List String) :
    addNames s (n :: ns) = addNames (if n ∈ s then s else s ++ [n]) ns := rfl

/-- `SessionStore.add` preserves duplicate-freeness of the suggested list. -/
theorem addNames_nodup :
    ∀ (names suggested : List String), suggested.Nodup →
      (addNames suggested names).Nodup := by
  intro names
  induction names with
  | nil =>
    intro s h
    simpa [addNames] using h
  | cons n ns ih =>
    intro s h
    rw [addNames_cons]
    by_cases hn : n ∈ s
    · rw [if_pos hn]; exact ih s h
    · rw [if_neg hn]
      refine ih _ ?_
      simp [List.nodup_append, h, hn]

/-- `SessionStore.add` produces exactly the union of the old suggested list
and the newly added names. -/
theorem addNames_mem :
    ∀ (names suggested : List String) (x : String),
      x ∈ addNames suggested names ↔ x ∈ suggested ∨ x ∈ names := by
  intro names
  induction names with
  | nil =>
    intro s x
    simp [addNames]
  | cons n ns ih =>
    intro s x
    rw [addNames_cons, ih]
    by_cases hn : n ∈ s
    · by_cases hx : x = n <;> simp [hn, hx]
    · by_cases hx : x = n <;> simp [hn, hx]

/-- `CreatorAgent.create` never returns a name from its excluded set. -/
theorem create_not_seen (batches : List (Dict String)) (seen : List String)
    (p : String × String) (hp : p ∈ create batches seen) : p.1 ∉ seen := by
  have h := (List.mem_filter.mp hp).2
  simpa using h

/-- A binding found in a dict is still found after appending entries. -/
theorem dlookup_append_left {β : Type} :
    ∀ (h t : Dict β) (n : String) (r : β),
      dlookup h n = some r → dlookup (h ++ t) n = some r := by
  intro h t n r
  induction h with
  | nil =>
    intro hx
    simp [dlookup] at hx
  | cons p rest ih =>
    rcases p with ⟨k2, v⟩
    intro hx
    simp only [dlookup, List.cons_append] at hx ⊢
    by_cases he : k2 = n
    · rw [if_pos he] at hx ⊢
      exact hx
    · rw [if_neg he] at hx ⊢
      exact ih hx

/-- One guarded History write never changes an existing binding. -/
theorem record1_preserve (status : String) (h : Dict HistoryRec)
    (c : String × String) (n : String) (r : HistoryRec)
    (hx : dlookup h n = some r) :
    dlookup (record1 status h c) n = some r := by
  unfold record1
  by_cases hk : (dlookup h c.1).isSome
  · rw [if_pos hk]; exact hx
  · rw [if_neg hk]; exact dlookup_append_left h _ n r hx

/-- A whole pass of guarded History writes never changes an existing
binding. -/
theorem foldl_record1_preserve (status : String) :
    ∀ (l : Dict String) (h : Dict HistoryRec) (n : String) (r : HistoryRec),
      dlookup h n = some r →
      dlookup (l.foldl (record1 status) h) n = some r := by
  intro l
  induction l with
  | nil =>
    intro h n r hx
    exact hx
  | cons c rest ih =>
    intro h n r hx
    rw [List.foldl_cons]
    exact ih _ n r (record1_preserve status h c n r hx)

/-- An appended string with a non-empty left part is non-empty. -/
theorem str_append_ne_empty (a b : String) (h : a.length ≠ 0) :
    (a ++ b) ≠ "" := by
  intro h0
  have h2 := congrArg String.length h0
  rw [String.length_append] at h2
  simp at h2
  exact h h2.1

/-- Passing a non-empty string in the `disliked_domains` slot survives the
`or`-normalisation and makes `_build_feedback_summary` raise on `.items()`. -/
theorem refineBriefDyn_str (rewrite : String → String → Option String)
    (b : String) (l : Dict String) (t : List String) (s : String)
    (hs : s ≠ "") :
    refineBriefDyn rewrite b l t (PyVal.pystr s) =
      Except.error itemsAttributeError := by
  unfold refineBriefDyn
  have ht : pyTruthy (PyVal.pystr s) = true := by simpa [pyTruthy] using hs
  rw [if_pos ht]

/-- C4: for every candidate batch passed to the Availability Filter — in
every mode, under every oracle behaviour — each input name appears in
exactly one of the two returned mappings: the available and taken outputs
cover the input keys, their key sets are disjoint, and their sizes add up to
the input size. -/
theorem C4_partition_completeness (mode : String) (searchModel : Option String)
    (llm : String → LLMOutcome) (rdap : String → Option String)
    (http : String → HttpResult) (candidates : Dict String)
    (hnd : (dkeys candidates).Nodup) :
    (∀ n, n ∈ dkeys candidates ↔
        (n ∈ dkeys (filter_available mode searchModel llm rdap http candidates).1 ∨
         n ∈ dkeys (filter_available mode searchModel llm rdap http candidates).2))
    ∧ (∀ n, n ∈ dkeys (filter_available mode searchModel llm rdap http candidates).1 →
        n ∉ dkeys (filter_available mode searchModel llm rdap http candidates).2)
    ∧ (filter_available mode searchModel llm rdap http candidates).1.length +
        (filter_available mode searchModel llm rdap http candidates).2.length =
        candidates.length := by
  unfold filter_available
  by_cases hc : candidates = []
  · subst hc
    refine ⟨?_, ?_, ?_⟩ <;> simp [dkeys]
  · rw [if_neg hc]
    by_cases hm : mode = "MODEL"
    · rw [if_pos hm]
      cases searchModel with
      | none => refine ⟨?_, ?_, ?_⟩ <;> simp [dkeys]
      | some m =>
        rw [filter_with_llm_search_eq]
        exact ⟨fun n => filter_cover candidates n,
               fun n => filter_disjoint candidates hnd n,
               filter_length candidates⟩
    · rw [if_neg hm, filter_with_local_http_eq]
      exact ⟨fun n => filter_cover candidates n,
             fun n => filter_disjoint candidates hnd n,
             filter_length candidates⟩

/-- C4 witness: the partition sizes add up on a concrete two-name batch in
LOCAL mode with an erroring HTTP oracle. -/
theorem C4_partition_completeness_witness :
    (filter_available "LOCAL" none exLlmErr exRdapW exHttpErr exCandsC4).1.length +
      (filter_available "LOCAL" none exLlmErr exRdapW exHttpErr exCandsC4).2.length =
      exCandsC4.length :=
  (C4_partition_completeness "LOCAL" none exLlmErr exRdapW exHttpErr exCandsC4
    (by decide)).2.2

/-- C1 (amended): the safety bias holds only partially.  A name is
classified TAKEN — and kept out of `available` — when the oracle errors or
times out (LOCAL request exception, MODEL call failure), when a LOCAL HTTP
response has status 200, and when a MODEL response parses to an ambiguous
status (neither `OK` nor `NOT`).  But in LOCAL mode the bias fails twice:
missing lookup data (no RDAP server known for the name's TLD) classifies
the name AVAILABLE ("Assuming FREE"), and any HTTP response whose status is
not 200 — including ambiguous statuses such as 403, 429 or 503, since the
code never calls `raise_for_status` — also classifies it AVAILABLE (only a
200 means TAKEN). -/
theorem C1_amended_safety_bias (rdap : String → Option String)
    (http : String → HttpResult) (llm : String → LLMOutcome)
    (candidates : Dict String) (name source : String)
    (hnd : (dkeys candidates).Nodup) (hmem : (name, source) ∈ candidates) :
    (∀ base, rdap (tldOf name) = some base →
      http (queryUrl base name) = HttpResult.err →
      name ∈ dkeys (filter_with_local_http rdap http candidates).2 ∧
      name ∉ dkeys (filter_with_local_http rdap http candidates).1)
    ∧ (rdap (tldOf name) = none →
      name ∈ dkeys (filter_with_local_http rdap http candidates).1 ∧
      name ∉ dkeys (filter_with_local_http rdap http candidates).2)
    ∧ (∀ base, rdap (tldOf name) = some base →
      http (queryUrl base name) = HttpResult.status 200 →
      name ∈ dkeys (filter_with_local_http rdap http candidates).2 ∧
      name ∉ dkeys (filter_with_local_http rdap http candidates).1)
    ∧ (∀ base code, rdap (tldOf name) = some base →
      http (queryUrl base name) = HttpResult.status code → code ≠ 200 →
      name ∈ dkeys (filter_with_local_http rdap http candidates).1 ∧
      name ∉ dkeys (filter_with_local_http rdap http candidates).2)
    ∧ (llm name = LLMOutcome.err →
      name ∈ dkeys (filter_with_llm_search llm candidates).2 ∧
      name ∉ dkeys (filter_with_llm_search llm candidates).1)
    ∧ (∀ results, llm name = LLMOutcome.response results →
      statusOf results name ≠ "OK" → statusOf results name ≠ "NOT" →
      name ∈ dkeys (filter_with_llm_search llm candidates).2 ∧
      name ∉ dkeys (filter_with_llm_search llm candidates).1) := by
  refine ⟨?_, ?_, ?_, ?_, ?_, ?_⟩
  · intro base h1 h2
    rw [filter_with_local_http_eq]
    exact filter_side_false candidates hnd hmem
      (by simp [localDecision, h1, h2])
  · intro h1
    rw [filter_with_local_http_eq]
    exact filter_side_true candidates hnd hmem
      (by simp [localDecision, h1])
  · intro base h1 h2
    rw [filter_with_local_http_eq]
    exact filter_side_false candidates hnd hmem
      (by simp [localDecision, h1, h2])
  · intro base code h1 h2 hcode
    rw [filter_with_local_http_eq]
    exact filter_side_true candidates hnd hmem
      (by simp [localDecision, h1, h2, hcode])
  · intro h1
    rw [filter_with_llm_search_eq]
    exact filter_side_false candidates hnd hmem
      (by simp [llmDecision, h1])
  · intro results h1 h2 h3
    rw [filter_with_llm_search_eq]
    exact filter_side_false candidates hnd hmem
      (by simp [llmDecision, h1, h3])

/-- C1 witness: on a one-name batch whose HTTP request errors, the name ends
up in `taken` and not in `available`. -/
theorem C1_amended_safety_bias_witness :
    "idea.com" ∈
      dkeys (filter_with_local_http exRdapW exHttpErr [("idea.com", "CreatorB")]).2 ∧
    "idea.com" ∉
      dkeys (filter_with_local_http exRdapW exHttpErr [("idea.com", "CreatorB")]).1 :=
  (C1_amended_safety_bias exRdapW exHttpErr exLlmErr [("idea.com", "CreatorB")]
    "idea.com" "CreatorB" (by decide) (by decide)).1
    "https://rdap.example" (by decide) (by decide)

/-- C1 counterexample: in LOCAL mode a name whose TLD has no known RDAP
server — the "no lookup data exists for the name's addressing scheme" case —
is classified AVAILABLE, not TAKEN, and appears in the available output,
contradicting the claim as stated. -/
theorem C1_counterexample :
    "brandify.xyz" ∈ dkeys (filter_available "LOCAL" (some "o4-mini") exLlmErr
      exNoServerRdap exHttpErr [("brandify.xyz", "CreatorA")]).1 ∧
    "brandify.xyz" ∉ dkeys (filter_available "LOCAL" (some "o4-mini") exLlmErr
      exNoServerRdap exHttpErr [("brandify.xyz", "CreatorA")]).2 := by
  decide

/-- C3: (i) the Seen Set stays duplicate-free under `SessionStore.add`;
(ii) adding name lists grows it to exactly the union of old content and the
added names, so repeated overlapping adds never grow it past the union;
(iii) the Candidate Generator never returns a name of the excluded set it
was called with; (iv) in a generation round the generated names are
registered into the Seen Set (before classification, which only uses the
round's own batch), so a later generation call against the updated Seen Set
can never return them again. -/
theorem C3_no_repeat :
    (∀ names suggested, List.Nodup suggested →
      (addNames suggested names).Nodup)
    ∧ (∀ names suggested (x : String),
        x ∈ addNames suggested names ↔ x ∈ suggested ∨ x ∈ names)
    ∧ (∀ batches seen (p : String × String), p ∈ create batches seen →
        p.1 ∉ seen)
    ∧ (∀ (batches : Nat → List (Dict String))
        (checker : Dict String → Dict String × Dict String) (a b : Nat)
        (st : LoopSt) (p : String × String),
          p ∈ create (batches a) st.seen →
            p.1 ∈ (roundBody batches checker a st).seen ∧
            ∀ q ∈ create (batches b) (roundBody batches checker a st).seen,
              q.1 ≠ p.1) := by
  refine ⟨addNames_nodup, addNames_mem, create_not_seen, ?_⟩
  intro batches checker a b st p hp
  have hseen : p.1 ∈ (roundBody batches checker a st).seen := by
    show p.1 ∈ addNames st.seen (dkeys (create (batches a) st.seen))
    rw [addNames_mem]
    right
    exact (mem_dkeys _ p.1).mpr ⟨p.2, by rw [Prod.mk.eta]; exact hp⟩
  refine ⟨hseen, fun q hq hqe => ?_⟩
  exact (create_not_seen _ _ q hq) (hqe ▸ hseen)

/-- C3 witness: a concrete overlapping add stays duplicate-free, and a
concrete generated candidate is outside the excluded set it was filtered
against. -/
theorem C3_no_repeat_witness :
    (addNames ["a.com"] ["a.com", "b.com"]).Nodup ∧
    ("a.com", "CreatorA").1 ∉ (["x.com"] : List String) :=
  ⟨C3_no_repeat.1 ["a.com", "b.com"] ["a.com"] (by decide),
   C3_no_repeat.2.2.1 [[("a.com", "CreatorA")]] ["x.com"] ("a.com", "CreatorA")
     (by decide)⟩

/-- C7: History is first-write-wins and idempotent — once a result record
has been stored for a name, any later `record_results` pass (with possibly
contradictory classifications) leaves that name's stored record unchanged. -/
theorem C7_history_first_write_wins (history : Dict HistoryRec)
    (available taken : Dict String) (name : String) (r : HistoryRec)
    (hx : dlookup history name = some r) :
    dlookup (record_results history available taken) name = some r := by
  unfold record_results
  exact foldl_record1_preserve "TAKEN" taken _ name r
    (foldl_record1_preserve "AVAILABLE" available history name r hx)

/-- C7 witness: `foo.com` recorded AVAILABLE still shows AVAILABLE after a
later pass re-encounters it as TAKEN. -/
theorem C7_history_first_write_wins_witness :
    dlookup (record_results [("foo.com", ("AVAILABLE", "CreatorA"))] []
      [("foo.com", "CreatorB")]) "foo.com" = some ("AVAILABLE", "CreatorA") :=
  C7_history_first_write_wins [("foo.com", ("AVAILABLE", "CreatorA"))] []
    [("foo.com", "CreatorB")] "foo.com" ("AVAILABLE", "CreatorA") (by decide)

/-- C2: the convergence loop increments its attempt counter once per
iteration and iterates exactly while the accumulated AVAILABLE count is
below the target and attempts remain (first two conjuncts: the loop's step
and exhaustion equations); with `target_count = 3, max_attempts = 5`, a
generator contributing exactly one new AVAILABLE name per attempt stops
after exactly 3 attempts with 3 AVAILABLE names (`TARGET_MET`); a generator
contributing none stops after exactly 5 attempts with an empty AVAILABLE set
(`BUDGET_EXHAUSTED`); and the accumulated AVAILABLE set is never trimmed to
the target (an overshooting third attempt leaves 4 names). -/
theorem C2_convergence_loop :
    (∀ (body : Nat → LoopSt → LoopSt) (desired fuel attempts : Nat)
      (st : LoopSt),
      generateLoopAux body desired (fuel + 1) attempts st =
        if st.available.length < desired then
          generateLoopAux body desired fuel (attempts + 1)
            (body (attempts + 1) st)
        else (attempts, st))
    ∧ (∀ (body : Nat → LoopSt → LoopSt) (desired attempts : Nat) (st : LoopSt),
      generateLoopAux body desired 0 attempts st = (attempts, st))
    ∧ ((generate_suggestions (roundBody oneFreshBatch allAvailableChecker)
          3 5 emptyLoopSt).1 = 3 ∧
       dkeys (generate_suggestions (roundBody oneFreshBatch allAvailableChecker)
          3 5 emptyLoopSt).2.available = ["d1.com", "d2.com", "d3.com"] ∧
       loopOutcome 3 (generate_suggestions (roundBody oneFreshBatch
          allAvailableChecker) 3 5 emptyLoopSt).2 = LoopOutcome.targetMet)
    ∧ ((generate_suggestions (roundBody oneFreshBatch noneAvailableChecker)
          3 5 emptyLoopSt).1 = 5 ∧
       (generate_suggestions (roundBody oneFreshBatch noneAvailableChecker)
          3 5 emptyLoopSt).2.available = [] ∧
       loopOutcome 3 (generate_suggestions (roundBody oneFreshBatch
          noneAvailableChecker) 3 5 emptyLoopSt).2 = LoopOutcome.budgetExhausted)
    ∧ ((generate_suggestions (roundBody overshootBatch allAvailableChecker)
          3 5 emptyLoopSt).1 = 3 ∧
       (generate_suggestions (roundBody overshootBatch allAvailableChecker)
          3 5 emptyLoopSt).2.available.length = 4) := by
  refine ⟨fun body desired fuel attempts st => rfl,
          fun body desired attempts st => rfl, ?_, ?_, ?_⟩
  · exact ⟨by decide, by decide, by decide⟩
  · exact ⟨by decide, by decide, by decide⟩
  · exact ⟨by decide, by decide⟩

/-- C5 (amended): in the API server, brief mutation is strictly sequential —
the brief after feedback round `n + 1` is exactly the refinement of the
brief after round `n` with round `n`'s feedback, for every rewrite oracle,
feedback script and starting state; in the CLI loop, by contrast, each
liked-path refinement is applied to the session's *initial* brief together
with the current round's feedback. -/
theorem C5_brief_mutation (rewrite : String → String → Option String)
    (script : Nat → Dict String × Dict String) (st0 : ApiState) (n : Nat)
    (initial_brief : String) (liked : Dict String)
    (takenNames : List String) :
    (apiRun rewrite script st0 (n + 1)).brief =
      (refine_brief rewrite (apiRun rewrite script st0 n).brief (script n).1
        (dkeys (apiRun rewrite script st0 n).taken) (script n).2).1
    ∧ cliLikedRoundBrief rewrite initial_brief liked takenNames =
      (refine_brief rewrite initial_brief liked takenNames []).1 :=
  ⟨rfl, rfl⟩

/-- C5 counterexample: in the CLI loop the brief produced after the second
feedback round is *not* the refinement of the round-2 brief with round 2's
feedback (as the claim demands for every round) — because `run_session`
always refines `initial_brief`, the round-1 feedback is dropped from the
round-3 brief. -/
theorem C5_counterexample :
    cliLikedRoundBrief exRewrite "artisan bakery" exLiked2 [] ≠
      (refine_brief exRewrite
        (cliLikedRoundBrief exRewrite "artisan bakery" exLiked1 [])
        exLiked2 [] []).1 := by
  decide

/-- C6: evaluating the code on the claim's scenario — a CLI round with an
empty AVAILABLE set whose incremented failure count is still below the cap
of 3 does not continue toward a third-round abort: it crashes with the
`AttributeError` raised when `_build_feedback_summary` iterates `.items()`
over the `dislike_reason` string that `run_session` passes in the
`disliked_domains` slot, so the claimed counting-to-three behaviour is
unreachable in the code. -/
theorem C6_failure_cap_crash (rewrite : String → String → Option String)
    (failures : Nat) (initial_brief : String) (taken_domains : Dict String)
    (h : failures + 1 < 3) :
    cliEmptyRoundStep rewrite 3 failures initial_brief taken_domains =
      EmptyRoundOutcome.crashed itemsAttributeError := by
  have hcap : ¬ (3 ≤ failures + 1) := by omega
  simp only [cliEmptyRoundStep]
  rw [if_neg hcap]
  by_cases ht : taken_domains = []
  · rw [if_pos ht,
      refineBriefDyn_str rewrite initial_brief [] (dkeys taken_domains) _
        (by decide)]
  · rw [if_neg ht,
      refineBriefDyn_str rewrite initial_brief [] (dkeys taken_domains) _
        (str_append_ne_empty _ _ (by decide))]

/-- C6 witness: the very first empty round (failure count 0 → 1, cap 3)
already crashes with the `AttributeError`. -/
theorem C6_failure_cap_crash_witness :
    cliEmptyRoundStep exRewrite 3 0 "artisan bakery"
        [("taken.com", "CreatorB")] =
      EmptyRoundOutcome.crashed itemsAttributeError :=
  C6_failure_cap_crash exRewrite 0 "artisan bakery"
    [("taken.com", "CreatorB")] (by omega)

/-- C8: Feedback Refinement is a no-op on empty signal — with empty liked,
empty disliked and empty taken list it returns the input brief and an empty
summary, for every rewrite oracle (so the result never depends on, i.e.
never invokes, the underlying rewrite step). -/
theorem C8_refinement_noop (rewrite : String → String → Option String)
    (brief : String) :
    refine_brief rewrite brief [] [] [] = (brief, "") := rfl

/-- C9: when the underlying rewrite call fails, Feedback Refinement returns
the current brief unchanged paired with the already-computed feedback
summary, for every input — the failure is absorbed, never propagated. -/
theorem C9_refinement_failure_fallback (brief : String) (liked : Dict String)
    (takenNames : List String) (disliked : Dict String) :
    refine_brief (fun _ _ => none) brief liked takenNames disliked =
      (brief, buildFeedbackSummary liked takenNames disliked) := by
  unfold refine_brief
  by_cases h : buildFeedbackSummary liked takenNames disliked = ""
  · rw [if_pos h, h]
  · rw [if_neg h]

/-- C10: in MODEL mode with no search model configured, the classify
operation returns an empty available mapping and the entire input batch as
taken, for every candidate batch and oracle behaviour — no error is raised
and no candidate is dropped. -/
theorem C10_model_mode_unconfigured (llm : String → LLMOutcome)
    (rdap : String → Option String) (http : String → HttpResult)
    (candidates : Dict String) :
    filter_available "MODEL" none llm rdap http candidates =
      ([], candidates) := by
  unfold filter_available
  by_cases h : candidates = []
  · rw [if_pos h, h]
  · rw [if_neg h, if_pos rfl]

end DomainAgent
